import Mathlib

/-!
Verification development for the LatchPay escrow micropayment protocol.

The Solidity contracts (EndpointRegistry, EscrowVault, SellerBondVault,
ReceiptStore, ReputationEngine) are shallowly embedded: contract storage
becomes a Lean structure, each external function becomes a Lean function
from the pre-state and the call arguments to an Except value that is
either an error (the revert reason) or the post-state.  A revert leaves
the caller with the unchanged pre-state, which is made explicit by
the runner functions below.  Machine integers (uint256) are modelled as
Nat: Solidity 0.8 checked arithmetic reverts instead of wrapping, and all
quantities reachable here stay far below 2^256; divisions are Nat floor
divisions exactly as in the source.  The keccak-derived identifiers
(payment ids, endpoint ids) are modelled by the monotone counters that
the contracts hash, which keeps id generation injective, exactly the
collision-freedom the contracts assume of keccak256.  ECDSA/EIP-712
recovery is abstracted by its result: markDeliveredWithSellerSig takes
the recovered signer address as an argument in place of the signature
bytes.
-/

namespace LatchPay

/-- Pointwise update of a total map with Nat keys, modelling a write to a
Solidity mapping slot. -/
def setAt {α : Type} (f : Nat → α) (k : Nat) (v : α) : Nat → α :=
  fun x => if x = k then v else f x

/-- Revert semantics: an error leaves the pre-state in place. -/
def unwrapOr {ε α : Type} (r : Except ε α) (d : α) : α :=
  match r with
  | .ok a => a
  | .error _ => d

/-- Whether a call reverted. -/
def isErr {ε α : Type} (r : Except ε α) : Bool :=
  match r with
  | .ok _ => false
  | .error _ => true

/-- Basis points denominator, shared by all contracts. -/
def BPS_DENOMINATOR : Nat := 10000

@[simp] theorem setAt_same {α : Type} (f : Nat → α) (k : Nat) (v : α) :
    setAt f k v k = v := by simp [setAt]

@[simp] theorem setAt_other {α : Type} (f : Nat → α) (k x : Nat) (v : α)
    (h : x ≠ k) : setAt f k v x = f x := by simp [setAt, h]

/-! ## SellerBondVault -/

/-- Bond record of SellerBondVault (struct Bond). -/
structure Bond where
  amount : Nat
  lockedUntil : Nat
  activePayments : Nat
  totalSlashed : Nat
deriving DecidableEq, Repr

/-- Default (never-touched) bond mapping slot: all fields zero. -/
def defaultBond : Bond := ⟨0, 0, 0, 0⟩

/-- Audit record appended on every slash (struct SlashRecord). -/
structure SlashRecord where
  paymentId : Nat
  amount : Nat
  timestamp : Nat
  reason : String
deriving DecidableEq, Repr

/-- Revert reasons of SellerBondVault. -/
inductive BondErr where
  | ZeroAddress
  | ZeroAmount
  | InsufficientBond
  | BondLocked
  | ActivePaymentsExist
  | NotAuthorized
  | SlashExceedsMax
  | SlashExceedsBond
  | TokenTransferFailed
deriving DecidableEq, Repr

/-- Maximum slash percentage (50%). -/
def MAX_SLASH_BPS : Nat := 5000

/-- Minimum lock period after deposit (7 days). -/
def MIN_LOCK_PERIOD : Nat := 604800

/-- Storage of the SellerBondVault contract, together with the USDC
balances it interacts with.  self is the vault contract address and
usdcBal/usdcAllowance model the token: usdcAllowance a is what address a
has approved the vault to pull. -/
structure BondVault where
  bonds : Nat → Bond
  slashRecords : Nat → List SlashRecord
  escrowVault : Nat
  owner : Nat
  self : Nat
  usdcBal : Nat → Nat
  usdcAllowance : Nat → Nat

/-- USDC transfer: debit src then credit dst (a self-transfer is a no-op
overall, as in ERC20). -/
def xferBal (bal : Nat → Nat) (src dst amt : Nat) : Nat → Nat :=
  let b1 := setAt bal src (bal src - amt)
  setAt b1 dst (b1 dst + amt)

/-- SellerBondVault.deposit: credits the bond and restarts the 7-day
lock, pulling USDC from the seller. -/
def BondVault.deposit (s : BondVault) (sender amount now : Nat) :
    Except BondErr BondVault :=
  if amount = 0 then .error .ZeroAmount
  else
    let bond := s.bonds sender
    if s.usdcAllowance sender < amount then .error .TokenTransferFailed
    else if s.usdcBal sender < amount then .error .TokenTransferFailed
    else .ok { s with
      bonds := setAt s.bonds sender
        { bond with amount := bond.amount + amount,
                    lockedUntil := now + MIN_LOCK_PERIOD },
      usdcAllowance := setAt s.usdcAllowance sender (s.usdcAllowance sender - amount),
      usdcBal := xferBal s.usdcBal sender s.self amount }

/-- SellerBondVault.withdraw: only after the lock elapsed and with no
active payments. -/
def BondVault.withdraw (s : BondVault) (sender amount now : Nat) :
    Except BondErr BondVault :=
  if amount = 0 then .error .ZeroAmount
  else
    let bond := s.bonds sender
    if bond.amount < amount then .error .InsufficientBond
    else if now < bond.lockedUntil then .error .BondLocked
    else if 0 < bond.activePayments then .error .ActivePaymentsExist
    else if s.usdcBal s.self < amount then .error .TokenTransferFailed
    else .ok { s with
      bonds := setAt s.bonds sender { bond with amount := bond.amount - amount },
      usdcBal := xferBal s.usdcBal s.self sender amount }

/-- SellerBondVault.slash: removes floor(amount * slashBps / 10000) from
the seller bond, appends one SlashRecord, and pays the removed funds to
the contract owner. -/
def BondVault.slash (s : BondVault) (sender seller paymentId slashBps : Nat)
    (reason : String) (now : Nat) : Except BondErr BondVault :=
  if sender ≠ s.escrowVault ∧ sender ≠ s.owner then .error .NotAuthorized
  else if MAX_SLASH_BPS < slashBps then .error .SlashExceedsMax
  else
    let bond := s.bonds seller
    let slashAmount := bond.amount * slashBps / BPS_DENOMINATOR
    if bond.amount < slashAmount then .error .SlashExceedsBond
    else if s.usdcBal s.self < slashAmount then .error .TokenTransferFailed
    else .ok { s with
      bonds := setAt s.bonds seller
        { bond with amount := bond.amount - slashAmount,
                    totalSlashed := bond.totalSlashed + slashAmount },
      slashRecords := setAt s.slashRecords seller
        (s.slashRecords seller ++ [⟨paymentId, slashAmount, now, reason⟩]),
      usdcBal := xferBal s.usdcBal s.self s.owner slashAmount }

/-! ## ReceiptStore -/

/-- Receipt stored once per payment (struct Receipt). -/
structure Receipt where
  paymentId : Nat
  endpointId : Nat
  buyer : Nat
  seller : Nat
  deliveryHash : Nat
  responseMetaHash : Nat
  timestamp : Nat
  amount : Nat
deriving DecidableEq, Repr

/-- Default (never-written) receipt mapping slot: all fields zero. -/
def defaultReceipt : Receipt := ⟨0, 0, 0, 0, 0, 0, 0, 0⟩

/-- Revert reasons of ReceiptStore. -/
inductive ReceiptErr where
  | NotAuthorized
  | ReceiptAlreadyExists
  | ReceiptNotFound
  | ZeroAddress
deriving DecidableEq, Repr

/-- Storage of the ReceiptStore contract. -/
structure ReceiptStore where
  receipts : Nat → Receipt
  receiptIds : List Nat
  escrowVault : Nat
  owner : Nat

/-- ReceiptStore.storeReceipt: write-once keyed by paymentId, existence
tested by a nonzero stored timestamp. -/
def ReceiptStore.storeReceipt (s : ReceiptStore)
    (sender paymentId endpointId buyer seller deliveryHash responseMetaHash
     amount now : Nat) : Except ReceiptErr ReceiptStore :=
  if sender ≠ s.escrowVault ∧ sender ≠ s.owner then .error .NotAuthorized
  else if (s.receipts paymentId).timestamp ≠ 0 then .error .ReceiptAlreadyExists
  else .ok { s with
    receipts := setAt s.receipts paymentId
      ⟨paymentId, endpointId, buyer, seller, deliveryHash, responseMetaHash,
       now, amount⟩,
    receiptIds := s.receiptIds ++ [paymentId] }

/-- ReceiptStore.receiptExists. -/
def ReceiptStore.receiptExists (s : ReceiptStore) (paymentId : Nat) : Bool :=
  (s.receipts paymentId).timestamp != 0

/-- ReceiptStore.verifyDeliveryHash: a bare equality check against the
stored mapping slot. -/
def ReceiptStore.verifyDeliveryHash (s : ReceiptStore)
    (paymentId deliveryHash : Nat) : Bool :=
  (s.receipts paymentId).deliveryHash == deliveryHash

/-- One storeReceipt request (the call arguments of a transaction). -/
structure StoreReq where
  sender : Nat
  paymentId : Nat
  endpointId : Nat
  buyer : Nat
  seller : Nat
  deliveryHash : Nat
  responseMetaHash : Nat
  amount : Nat
  now : Nat
deriving DecidableEq, Repr

/-- Execute one storeReceipt transaction with revert semantics. -/
def ReceiptStore.execStore (s : ReceiptStore) (q : StoreReq) : ReceiptStore :=
  unwrapOr (s.storeReceipt q.sender q.paymentId q.endpointId q.buyer q.seller
    q.deliveryHash q.responseMetaHash q.amount q.now) s

/-- Execute a sequence of storeReceipt transactions. -/
def ReceiptStore.execStores (s : ReceiptStore) (qs : List StoreReq) :
    ReceiptStore :=
  qs.foldl ReceiptStore.execStore s

/-- Fresh ReceiptStore (constructor state plus the later setEscrowVault
wiring). -/
def initReceiptStore (owner escrow : Nat) : ReceiptStore :=
  ⟨fun _ => defaultReceipt, [], escrow, owner⟩

/-- All requests carry a positive block timestamp (true of every real
chain, where block.timestamp is a positive Unix time). -/
def GoodReqs (qs : List StoreReq) : Prop := ∀ q ∈ qs, 0 < q.now

/-! ## ReputationEngine -/

/-- Per-seller counters (struct SellerScore). -/
structure SellerScore where
  totalDeliveries : Nat
  successfulDeliveries : Nat
  totalDisputes : Nat
  disputesLost : Nat
  totalRefunds : Nat
  totalVolumeUSD6 : Nat
  lastActivityAt : Nat
  registeredAt : Nat
deriving DecidableEq, Repr

/-- Default seller counters. -/
def defaultSellerScore : SellerScore := ⟨0, 0, 0, 0, 0, 0, 0, 0⟩

/-- Per-buyer counters (struct BuyerScore). -/
structure BuyerScore where
  totalPayments : Nat
  totalDisputes : Nat
  disputesWon : Nat
  totalSpentUSD6 : Nat
  lastActivityAt : Nat
  registeredAt : Nat
deriving DecidableEq, Repr

/-- Default buyer counters. -/
def defaultBuyerScore : BuyerScore := ⟨0, 0, 0, 0, 0, 0⟩

/-- Revert reasons of ReputationEngine. -/
inductive RepErr where
  | NotAuthorized
  | ZeroAddress
deriving DecidableEq, Repr

/-- Max volume for bonus calculation (1000 USDC in 6-decimal units). -/
def MAX_VOLUME_FOR_BONUS : Nat := 1000000000

/-- Leaderboard capacity. -/
def MAX_LEADERBOARD : Nat := 50

/-- Storage of the ReputationEngine contract. -/
structure ReputationEngine where
  sellerScores : Nat → SellerScore
  buyerScores : Nat → BuyerScore
  escrowVault : Nat
  owner : Nat
  topSellers : List Nat

/-- ReputationEngine.getSellerReputationScore, the composite seller
score computed on read. -/
def ReputationEngine.getSellerReputationScore (s : ReputationEngine)
    (seller : Nat) : Nat :=
  let ss := s.sellerScores seller
  if ss.totalDeliveries = 0 then 0
  else
    let successRate := ss.successfulDeliveries * BPS_DENOMINATOR / ss.totalDeliveries
    let successComponent := successRate * 7000 / BPS_DENOMINATOR
    let disputeRate :=
      if 0 < ss.totalDeliveries
      then ss.disputesLost * BPS_DENOMINATOR / ss.totalDeliveries
      else 0
    let lowDisputeRate :=
      if BPS_DENOMINATOR ≤ disputeRate then 0 else BPS_DENOMINATOR - disputeRate
    let disputeComponent := lowDisputeRate * 2000 / BPS_DENOMINATOR
    let volumeFrac :=
      if MAX_VOLUME_FOR_BONUS ≤ ss.totalVolumeUSD6 then BPS_DENOMINATOR
      else ss.totalVolumeUSD6 * BPS_DENOMINATOR / MAX_VOLUME_FOR_BONUS
    let volumeComponent := volumeFrac * 1000 / BPS_DENOMINATOR
    successComponent + disputeComponent + volumeComponent

/-- ReputationEngine internal updateLeaderboard: keep the seller if
already listed, append while a slot is free, otherwise replace the
lowest-scoring member when strictly beaten. -/
def ReputationEngine.updateLeaderboard (s : ReputationEngine) (seller : Nat) :
    ReputationEngine :=
  if s.topSellers.contains seller then s
  else if s.topSellers.length < MAX_LEADERBOARD then
    { s with topSellers := s.topSellers ++ [seller] }
  else
    let step := fun (acc : Nat × Nat × Nat) (a : Nat) =>
      let sc := s.getSellerReputationScore a
      if sc < acc.2.1 then (acc.1 + 1, sc, acc.1) else (acc.1 + 1, acc.2.1, acc.2.2)
    let r := s.topSellers.foldl step (0, 2 ^ 256 - 1, 0)
    let newScore := s.getSellerReputationScore seller
    if r.2.1 < newScore then { s with topSellers := s.topSellers.set r.2.2 seller }
    else s

/-- ReputationEngine.recordDelivery. -/
def ReputationEngine.recordDelivery (s : ReputationEngine)
    (sender _paymentId seller buyer now : Nat) :
    Except RepErr ReputationEngine :=
  if sender ≠ s.escrowVault ∧ sender ≠ s.owner then .error .NotAuthorized
  else
    let ss := s.sellerScores seller
    let bs := s.buyerScores buyer
    let s1 : ReputationEngine := { s with
      sellerScores := setAt s.sellerScores seller
        { ss with totalDeliveries := ss.totalDeliveries + 1,
                  successfulDeliveries := ss.successfulDeliveries + 1,
                  lastActivityAt := now,
                  registeredAt := if ss.registeredAt = 0 then now else ss.registeredAt },
      buyerScores := setAt s.buyerScores buyer
        { bs with totalPayments := bs.totalPayments + 1,
                  lastActivityAt := now,
                  registeredAt := if bs.registeredAt = 0 then now else bs.registeredAt } }
    .ok (s1.updateLeaderboard seller)

/-- ReputationEngine.recordDispute. -/
def ReputationEngine.recordDispute (s : ReputationEngine)
    (sender _paymentId seller buyer : Nat) (buyerWon : Bool) (now : Nat) :
    Except RepErr ReputationEngine :=
  if sender ≠ s.escrowVault ∧ sender ≠ s.owner then .error .NotAuthorized
  else
    let ss := s.sellerScores seller
    let bs := s.buyerScores buyer
    let s1 : ReputationEngine := { s with
      sellerScores := setAt s.sellerScores seller
        { ss with totalDisputes := ss.totalDisputes + 1,
                  disputesLost := if buyerWon then ss.disputesLost + 1 else ss.disputesLost,
                  lastActivityAt := now,
                  registeredAt := if ss.registeredAt = 0 then now else ss.registeredAt },
      buyerScores := setAt s.buyerScores buyer
        { bs with totalDisputes := bs.totalDisputes + 1,
                  disputesWon := if buyerWon then bs.disputesWon + 1 else bs.disputesWon,
                  lastActivityAt := now,
                  registeredAt := if bs.registeredAt = 0 then now else bs.registeredAt } }
    .ok (s1.updateLeaderboard seller)

/-- ReputationEngine.recordRefund: the refund counts as an attempted
(unsuccessful) delivery. -/
def ReputationEngine.recordRefund (s : ReputationEngine)
    (sender _paymentId seller buyer now : Nat) :
    Except RepErr ReputationEngine :=
  if sender ≠ s.escrowVault ∧ sender ≠ s.owner then .error .NotAuthorized
  else
    let ss := s.sellerScores seller
    let bs := s.buyerScores buyer
    let s1 : ReputationEngine := { s with
      sellerScores := setAt s.sellerScores seller
        { ss with totalRefunds := ss.totalRefunds + 1,
                  totalDeliveries := ss.totalDeliveries + 1,
                  lastActivityAt := now,
                  registeredAt := if ss.registeredAt = 0 then now else ss.registeredAt },
      buyerScores := setAt s.buyerScores buyer
        { bs with totalPayments := bs.totalPayments + 1,
                  lastActivityAt := now,
                  registeredAt := if bs.registeredAt = 0 then now else bs.registeredAt } }
    .ok (s1.updateLeaderboard seller)

/-- One ReputationEngine transaction. -/
inductive RepOp where
  | delivery (sender paymentId seller buyer now : Nat)
  | disputeOutcome (sender paymentId seller buyer : Nat) (buyerWon : Bool) (now : Nat)
  | refundOutcome (sender paymentId seller buyer now : Nat)
deriving DecidableEq, Repr

/-- Execute one ReputationEngine transaction with revert semantics. -/
def ReputationEngine.execRepOp (s : ReputationEngine) (op : RepOp) :
    ReputationEngine :=
  match op with
  | .delivery sender pid seller buyer now =>
      unwrapOr (s.recordDelivery sender pid seller buyer now) s
  | .disputeOutcome sender pid seller buyer buyerWon now =>
      unwrapOr (s.recordDispute sender pid seller buyer buyerWon now) s
  | .refundOutcome sender pid seller buyer now =>
      unwrapOr (s.recordRefund sender pid seller buyer now) s

/-- Execute a sequence of ReputationEngine transactions. -/
def ReputationEngine.execRepOps (s : ReputationEngine) (ops : List RepOp) :
    ReputationEngine :=
  ops.foldl ReputationEngine.execRepOp s

/-- Fresh ReputationEngine (constructor state plus the setEscrowVault
wiring). -/
def initReputationEngine (owner escrow : Nat) : ReputationEngine :=
  ⟨fun _ => defaultSellerScore, fun _ => defaultBuyerScore, escrow, owner, []⟩

/-- A ReputationEngine state reachable from deployment by any sequence
of record transactions. -/
def RepReachable (s : ReputationEngine) : Prop :=
  ∃ owner escrow ops, ReputationEngine.execRepOps (initReputationEngine owner escrow) ops = s

/-! ## EndpointRegistry and EscrowVault

The deployed protocol is one wired composite: the registry, the escrow
vault, the USDC token, and the (deployed but never called by the vault)
ReputationEngine and ReceiptStore satellites.  System below is the
combined storage; the escrow operations mutate exactly the slots the
Solidity functions write.  The deploy script wires
registry.escrowVault to the vault, so the internal
registry.incrementCalls call made by the vault passes the registry
authorization check; that check is therefore not re-modelled on the
internal call, while the EndpointNotFound revert inside incrementCalls
is kept. -/

/-- Payment lifecycle status (enum PaymentStatus); Pending is the
zero/default member. -/
inductive PaymentStatus where
  | Pending
  | Delivered
  | Released
  | Refunded
  | Disputed
deriving DecidableEq, Repr

/-- Endpoint listing (struct Endpoint in EndpointRegistry). -/
structure Endpoint where
  seller : Nat
  metadataURI : String
  pricePerCall : Nat
  category : Nat
  disputeWindowSeconds : Nat
  requiredBond : Nat
  active : Bool
  createdAt : Nat
  updatedAt : Nat
  totalCalls : Nat
deriving DecidableEq, Repr

/-- Default (never-registered) endpoint mapping slot. -/
def defaultEndpoint : Endpoint := ⟨0, "", 0, 0, 0, 0, false, 0, 0, 0⟩

/-- Escrowed payment (struct Payment in EscrowVault). -/
structure Payment where
  paymentId : Nat
  endpointId : Nat
  buyer : Nat
  seller : Nat
  amount : Nat
  openedAt : Nat
  deliveredAt : Nat
  disputeWindowEnds : Nat
  status : PaymentStatus
  buyerNoteHash : Nat
  deliveryHash : Nat
  responseMetaHash : Nat
  evidenceHash : Nat
deriving DecidableEq, Repr

/-- Default (never-opened) payment mapping slot; the Solidity enum
default is Pending and the zero buyer address marks nonexistence. -/
def defaultPayment : Payment :=
  ⟨0, 0, 0, 0, 0, 0, 0, 0, PaymentStatus.Pending, 0, 0, 0, 0⟩

/-- Revert reasons of EndpointRegistry and EscrowVault. -/
inductive Err where
  | InvalidEndpoint
  | EndpointNotActive
  | InsufficientAllowance
  | PaymentNotFound
  | InvalidStatus
  | NotBuyer
  | NotSeller
  | DisputeWindowActive
  | DisputeWindowExpired
  | InvalidSignature
  | InvalidAmount
  | FeeTooHigh
  | ZeroAddress
  | DeliveryDeadlinePassed
  | DeliveryDeadlineNotPassed
  | EndpointNotFound
  | NotEndpointOwner
  | EndpointAlreadyActive
  | EmptyMetadataURI
  | InvalidPrice
  | InvalidDisputeWindow
  | NotOwner
  | TokenTransferFailed
deriving DecidableEq, Repr

/-- Combined storage of the wired deployment. -/
structure System where
  endpoints : Nat → Endpoint
  endpointCounter : Nat
  payments : Nat → Payment
  paymentCounter : Nat
  protocolFeeBps : Nat
  feeRecipient : Nat
  accumulatedFees : Nat
  deliveryDeadline : Nat
  escrowOwner : Nat
  vaultAddr : Nat
  bal : Nat → Nat
  allowance : Nat → Nat
  sellerScores : Nat → SellerScore
  buyerScores : Nat → BuyerScore
  receipts : Nat → Receipt

/-- EndpointRegistry.registerEndpoint.  The keccak endpoint id is
modelled by the nonce the contract hashes (endpointCounter), keeping id
generation injective. -/
def registerEndpoint (s : System) (sender : Nat) (metadataURI : String)
    (pricePerCall category disputeWindowSeconds requiredBond now : Nat) :
    Except Err System :=
  if metadataURI.length = 0 then .error .EmptyMetadataURI
  else if pricePerCall = 0 then .error .InvalidPrice
  else if disputeWindowSeconds < 3600 ∨ 2592000 < disputeWindowSeconds then
    .error .InvalidDisputeWindow
  else
    let eid := s.endpointCounter
    .ok { s with
      endpointCounter := s.endpointCounter + 1,
      endpoints := setAt s.endpoints eid
        { seller := sender, metadataURI := metadataURI,
          pricePerCall := pricePerCall, category := category,
          disputeWindowSeconds := disputeWindowSeconds,
          requiredBond := requiredBond, active := true,
          createdAt := now, updatedAt := now, totalCalls := 0 } }

/-- EndpointRegistry.updateEndpoint: seller-only, same validation as
register; rewrites metadataURI, pricePerCall, disputeWindowSeconds. -/
def updateEndpoint (s : System) (sender endpointId : Nat)
    (metadataURI : String) (pricePerCall disputeWindowSeconds now : Nat) :
    Except Err System :=
  let ep := s.endpoints endpointId
  if ep.seller = 0 then .error .EndpointNotFound
  else if ep.seller ≠ sender then .error .NotEndpointOwner
  else if metadataURI.length = 0 then .error .EmptyMetadataURI
  else if pricePerCall = 0 then .error .InvalidPrice
  else if disputeWindowSeconds < 3600 ∨ 2592000 < disputeWindowSeconds then
    .error .InvalidDisputeWindow
  else .ok { s with
    endpoints := setAt s.endpoints endpointId
      { ep with metadataURI := metadataURI, pricePerCall := pricePerCall,
                disputeWindowSeconds := disputeWindowSeconds, updatedAt := now } }

/-- EndpointRegistry.deactivateEndpoint. -/
def deactivateEndpoint (s : System) (sender endpointId now : Nat) :
    Except Err System :=
  let ep := s.endpoints endpointId
  if ep.seller = 0 then .error .EndpointNotFound
  else if ep.seller ≠ sender then .error .NotEndpointOwner
  else if ep.active = false then .error .EndpointNotActive
  else .ok { s with
    endpoints := setAt s.endpoints endpointId
      { ep with active := false, updatedAt := now } }

/-- EndpointRegistry.reactivateEndpoint. -/
def reactivateEndpoint (s : System) (sender endpointId now : Nat) :
    Except Err System :=
  let ep := s.endpoints endpointId
  if ep.seller = 0 then .error .EndpointNotFound
  else if ep.seller ≠ sender then .error .NotEndpointOwner
  else if ep.active = true then .error .EndpointAlreadyActive
  else .ok { s with
    endpoints := setAt s.endpoints endpointId
      { ep with active := true, updatedAt := now } }

/-- EndpointRegistry.isValidEndpoint. -/
def isValidEndpoint (s : System) (endpointId : Nat) : Bool :=
  (s.endpoints endpointId).seller != 0 && (s.endpoints endpointId).active

/-- EscrowVault.openPayment: price-locks amount at the endpoint price,
pulls USDC from the buyer into the vault, and stores a Pending payment
with the provisional dispute deadline.  The keccak payment id is
modelled by the nonce the contract hashes (paymentCounter). -/
def openPayment (s : System) (sender endpointId maxPrice buyerNoteHash now : Nat) :
    Except Err System :=
  if isValidEndpoint s endpointId = false then .error .InvalidEndpoint
  else
    let ep := s.endpoints endpointId
    if ep.active = false then .error .EndpointNotActive
    else if maxPrice < ep.pricePerCall then .error .InvalidAmount
    else
      let amount := ep.pricePerCall
      if s.allowance sender < amount then .error .InsufficientAllowance
      else if s.bal sender < amount then .error .TokenTransferFailed
      else
        let pid := s.paymentCounter
        .ok { s with
          paymentCounter := s.paymentCounter + 1,
          payments := setAt s.payments pid
            { paymentId := pid, endpointId := endpointId, buyer := sender,
              seller := ep.seller, amount := amount, openedAt := now,
              deliveredAt := 0,
              disputeWindowEnds := now + ep.disputeWindowSeconds + s.deliveryDeadline,
              status := .Pending, buyerNoteHash := buyerNoteHash,
              deliveryHash := 0, responseMetaHash := 0, evidenceHash := 0 },
          allowance := setAt s.allowance sender (s.allowance sender - amount),
          bal := xferBal s.bal sender s.vaultAddr amount }

/-- EscrowVault.markDeliveredWithSellerSig.  EIP-712 recovery is
abstracted by its result: recoveredSigner stands for
digest.recover(sellerSig).  On success the payment moves to Delivered,
the dispute window is recomputed from the endpoint state read at
delivery time, and registry.incrementCalls bumps the endpoint call
counter. -/
def markDeliveredWithSellerSig (s : System)
    (paymentId deliveryHash responseMetaHash recoveredSigner now : Nat) :
    Except Err System :=
  let p := s.payments paymentId
  if p.buyer = 0 then .error .PaymentNotFound
  else if p.status ≠ .Pending then .error .InvalidStatus
  else if p.openedAt + s.deliveryDeadline < now then .error .DeliveryDeadlinePassed
  else if recoveredSigner ≠ p.seller then .error .InvalidSignature
  else
    let ep := s.endpoints p.endpointId
    if ep.seller = 0 then .error .EndpointNotFound
    else .ok { s with
      payments := setAt s.payments paymentId
        { p with status := .Delivered, deliveredAt := now,
                 deliveryHash := deliveryHash,
                 responseMetaHash := responseMetaHash,
                 disputeWindowEnds := now + ep.disputeWindowSeconds },
      endpoints := setAt s.endpoints p.endpointId
        { ep with totalCalls := ep.totalCalls + 1 } }

/-- EscrowVault.dispute: buyer-only, within the dispute window. -/
def disputePayment (s : System) (sender paymentId evidenceHash now : Nat) :
    Except Err System :=
  let p := s.payments paymentId
  if p.buyer = 0 then .error .PaymentNotFound
  else if sender ≠ p.buyer then .error .NotBuyer
  else if p.status ≠ .Delivered then .error .InvalidStatus
  else if p.disputeWindowEnds < now then .error .DisputeWindowExpired
  else .ok { s with
    payments := setAt s.payments paymentId
      { p with status := .Disputed, evidenceHash := evidenceHash } }

/-- EscrowVault.release: permissionless once the dispute window elapsed;
pays amount minus the floor protocol fee to the seller and accrues the
fee. -/
def release (s : System) (paymentId now : Nat) : Except Err System :=
  let p := s.payments paymentId
  if p.buyer = 0 then .error .PaymentNotFound
  else if p.status ≠ .Delivered then .error .InvalidStatus
  else if now < p.disputeWindowEnds then .error .DisputeWindowActive
  else
    let fee := p.amount * s.protocolFeeBps / BPS_DENOMINATOR
    let sellerAmount := p.amount - fee
    if s.bal s.vaultAddr < sellerAmount then .error .TokenTransferFailed
    else .ok { s with
      payments := setAt s.payments paymentId { p with status := .Released },
      accumulatedFees := s.accumulatedFees + fee,
      bal := xferBal s.bal s.vaultAddr p.seller sellerAmount }

/-- EscrowVault.refund: permissionless once the delivery deadline passed
with the payment still Pending; returns the full amount to the buyer. -/
def refundPayment (s : System) (paymentId now : Nat) : Except Err System :=
  let p := s.payments paymentId
  if p.buyer = 0 then .error .PaymentNotFound
  else if p.status ≠ .Pending then .error .InvalidStatus
  else if now ≤ p.openedAt + s.deliveryDeadline then .error .DeliveryDeadlineNotPassed
  else if s.bal s.vaultAddr < p.amount then .error .TokenTransferFailed
  else .ok { s with
    payments := setAt s.payments paymentId { p with status := .Refunded },
    bal := xferBal s.bal s.vaultAddr p.buyer p.amount }

/-- EscrowVault.resolveDispute: owner-only; buyer win refunds in full,
seller win releases minus the floor protocol fee. -/
def resolveDispute (s : System) (sender paymentId : Nat) (buyerWins : Bool)
    (_now : Nat) : Except Err System :=
  if sender ≠ s.escrowOwner then .error .NotOwner
  else
    let p := s.payments paymentId
    if p.buyer = 0 then .error .PaymentNotFound
    else if p.status ≠ .Disputed then .error .InvalidStatus
    else if buyerWins then
      if s.bal s.vaultAddr < p.amount then .error .TokenTransferFailed
      else .ok { s with
        payments := setAt s.payments paymentId { p with status := .Refunded },
        bal := xferBal s.bal s.vaultAddr p.buyer p.amount }
    else
      let fee := p.amount * s.protocolFeeBps / BPS_DENOMINATOR
      let sellerAmount := p.amount - fee
      if s.bal s.vaultAddr < sellerAmount then .error .TokenTransferFailed
      else .ok { s with
        payments := setAt s.payments paymentId { p with status := .Released },
        accumulatedFees := s.accumulatedFees + fee,
        bal := xferBal s.bal s.vaultAddr p.seller sellerAmount }

/-- One top-level transaction against the wired deployment. -/
inductive Op where
  | register (sender : Nat) (metadataURI : String)
      (pricePerCall category disputeWindowSeconds requiredBond now : Nat)
  | update (sender endpointId : Nat) (metadataURI : String)
      (pricePerCall disputeWindowSeconds now : Nat)
  | deactivate (sender endpointId now : Nat)
  | reactivate (sender endpointId now : Nat)
  | openPay (sender endpointId maxPrice buyerNoteHash now : Nat)
  | markDelivered (paymentId deliveryHash responseMetaHash recoveredSigner now : Nat)
  | disputeCall (sender paymentId evidenceHash now : Nat)
  | releaseCall (paymentId now : Nat)
  | refundCall (paymentId now : Nat)
  | resolve (sender paymentId : Nat) (buyerWins : Bool) (now : Nat)
deriving DecidableEq, Repr

/-- Dispatch one transaction. -/
def applyOp (s : System) (op : Op) : Except Err System :=
  match op with
  | .register sender uri price category window bond now =>
      registerEndpoint s sender uri price category window bond now
  | .update sender eid uri price window now =>
      updateEndpoint s sender eid uri price window now
  | .deactivate sender eid now => deactivateEndpoint s sender eid now
  | .reactivate sender eid now => reactivateEndpoint s sender eid now
  | .openPay sender eid maxPrice note now => openPayment s sender eid maxPrice note now
  | .markDelivered pid dh rmh signer now =>
      markDeliveredWithSellerSig s pid dh rmh signer now
  | .disputeCall sender pid evidence now => disputePayment s sender pid evidence now
  | .releaseCall pid now => release s pid now
  | .refundCall pid now => refundPayment s pid now
  | .resolve sender pid buyerWins now => resolveDispute s sender pid buyerWins now

/-- Apply a sequence of transactions, failing if any reverts. -/
def applyOps (s : System) (ops : List Op) : Except Err System :=
  match ops with
  | [] => .ok s
  | op :: rest =>
      match applyOp s op with
      | .ok t => applyOps t rest
      | .error e => .error e

/-- Execute one transaction with revert semantics. -/
def execOp (s : System) (op : Op) : System :=
  unwrapOr (applyOp s op) s

/-- Execute a sequence of transactions with revert semantics. -/
def execOps (s : System) (ops : List Op) : System :=
  ops.foldl execOp s

/-- Concrete freshly-deployed system used by the closed theorems below:
fee 100 bps, delivery deadline 24 h, buyer address 5 funded with and
approving 1 USDC-million units, vault at address 1, owner at 9. -/
def baseSystem : System where
  endpoints := fun _ => defaultEndpoint
  endpointCounter := 0
  payments := fun _ => defaultPayment
  paymentCounter := 0
  protocolFeeBps := 100
  feeRecipient := 2
  accumulatedFees := 0
  deliveryDeadline := 86400
  escrowOwner := 9
  vaultAddr := 1
  bal := fun a => if a = 5 then 1000000 else 0
  allowance := fun a => if a = 5 then 1000000 else 0
  sellerScores := fun _ => defaultSellerScore
  buyerScores := fun _ => defaultBuyerScore
  receipts := fun _ => defaultReceipt

/-- Happy-path transaction list: seller 7 registers a 100-unit endpoint
with a 1-hour dispute window, buyer 5 opens, seller delivers, anyone
releases after the window. -/
def happyOps : List Op :=
  [ Op.register 7 "uri" 100 0 3600 0 10,
    Op.openPay 5 0 100 0 20,
    Op.markDelivered 0 11 12 7 30,
    Op.releaseCall 0 4000 ]

def c4opsA : List Op :=
  [ Op.register 7 "uri" 100 0 3600 0 10,
    Op.openPay 5 0 100 0 20,
    Op.markDelivered 0 11 12 7 30 ]

def c4opsB : List Op :=
  [ Op.register 7 "uri" 100 0 3600 0 10,
    Op.openPay 5 0 100 0 20,
    Op.update 7 0 "uri2" 100 7200 25,
    Op.markDelivered 0 11 12 7 30 ]

/-! ## Claim theorems -/

/-- C6.  Slash bound: an authorized slash call with slashBps above 5000
reverts with SlashExceedsMax; with slashBps at most 5000 it succeeds,
removes exactly floor(amount * slashBps / 10000) from the bond — never
more than half of the current amount, and never driving it negative —
and appends exactly one SlashRecord.  Solvency of the vault for the
seller bond is assumed (true of every reachable vault state). -/
theorem slash_bound (s : BondVault) (sender seller paymentId slashBps : Nat)
    (reason : String) (now : Nat)
    (hauth : sender = s.escrowVault ∨ sender = s.owner)
    (hsolv : (s.bonds seller).amount ≤ s.usdcBal s.self) :
    (MAX_SLASH_BPS < slashBps →
      s.slash sender seller paymentId slashBps reason now = .error .SlashExceedsMax) ∧
    (slashBps ≤ MAX_SLASH_BPS →
      isErr (s.slash sender seller paymentId slashBps reason now) = false ∧
      ((unwrapOr (s.slash sender seller paymentId slashBps reason now) s).bonds seller).amount
        = (s.bonds seller).amount - (s.bonds seller).amount * slashBps / BPS_DENOMINATOR ∧
      ((unwrapOr (s.slash sender seller paymentId slashBps reason now) s).bonds seller).amount
        + (s.bonds seller).amount * slashBps / BPS_DENOMINATOR = (s.bonds seller).amount ∧
      (s.bonds seller).amount * slashBps / BPS_DENOMINATOR ≤ (s.bonds seller).amount / 2 ∧
      (unwrapOr (s.slash sender seller paymentId slashBps reason now) s).slashRecords seller
        = s.slashRecords seller
          ++ [⟨paymentId, (s.bonds seller).amount * slashBps / BPS_DENOMINATOR, now, reason⟩]) := by
  have hauth' : ¬ (sender ≠ s.escrowVault ∧ sender ≠ s.owner) := by tauto
  constructor
  · intro hgt
    unfold BondVault.slash
    rw [if_neg hauth', if_pos hgt]
  · intro hle
    have hhalf : (s.bonds seller).amount * slashBps / BPS_DENOMINATOR
        ≤ (s.bonds seller).amount / 2 := by
      have h1 : (s.bonds seller).amount * slashBps ≤ (s.bonds seller).amount * 5000 :=
        Nat.mul_le_mul_left _ hle
      have h2 : (s.bonds seller).amount * slashBps / BPS_DENOMINATOR
          ≤ (s.bonds seller).amount * 5000 / BPS_DENOMINATOR :=
        Nat.div_le_div_right h1
      have h3 : (s.bonds seller).amount * 5000 / BPS_DENOMINATOR
          = (s.bonds seller).amount / 2 := by
        show (s.bonds seller).amount * 5000 / 10000 = _
        rw [Nat.mul_comm, show (10000 : Nat) = 5000 * 2 from rfl,
          Nat.mul_div_mul_left _ _ (by norm_num)]
      omega
    have hle_amt : (s.bonds seller).amount * slashBps / BPS_DENOMINATOR
        ≤ (s.bonds seller).amount :=
      le_trans hhalf (Nat.div_le_self _ _)
    have hnotmax : ¬ (MAX_SLASH_BPS < slashBps) := by omega
    have hnotover : ¬ ((s.bonds seller).amount
        < (s.bonds seller).amount * slashBps / BPS_DENOMINATOR) := by omega
    have hnotbal : ¬ (s.usdcBal s.self
        < (s.bonds seller).amount * slashBps / BPS_DENOMINATOR) := by omega
    unfold BondVault.slash
    rw [if_neg hauth', if_neg hnotmax]
    simp only [hnotover, if_neg, hnotbal]
    refine ⟨rfl, ?_, ?_, hhalf, ?_⟩
    all_goals simp [unwrapOr, setAt, isErr, hnotover, hnotbal]
    all_goals omega

/-- Concrete bond vault for the slash witness: seller 7 holds a bond of
100 units, the vault (address 4) holds the matching 100 units, owner is
address 9. -/
def baseBondVault : BondVault where
  bonds := setAt (fun _ => defaultBond) 7 ⟨100, 0, 0, 0⟩
  slashRecords := fun _ => []
  escrowVault := 3
  owner := 9
  self := 4
  usdcBal := fun a => if a = 4 then 100 else 0
  usdcAllowance := fun _ => 0

/-- Witness for slash_bound: slashBps 6000 reverts SlashExceedsMax and
slashBps 5000 on a bond of 100 removes exactly 50, leaving 50, with one
audit record appended. -/
theorem slash_bound_witness :
    baseBondVault.slash 9 7 1 6000 "late" 50 = .error .SlashExceedsMax ∧
    ((unwrapOr (baseBondVault.slash 9 7 1 5000 "late" 50) baseBondVault).bonds 7).amount = 50 ∧
    (unwrapOr (baseBondVault.slash 9 7 1 5000 "late" 50) baseBondVault).slashRecords 7
      = [⟨1, 50, 50, "late"⟩] := by
  refine ⟨(slash_bound baseBondVault 9 7 1 6000 "late" 50 (Or.inr rfl)
      (by decide)).1 (by decide), ?_, ?_⟩
  · have h := (slash_bound baseBondVault 9 7 1 5000 "late" 50 (Or.inr rfl)
      (by decide)).2 (by decide)
    rw [h.2.1]
    decide
  · have h := (slash_bound baseBondVault 9 7 1 5000 "late" 50 (Or.inr rfl)
      (by decide)).2 (by decide)
    rw [h.2.2.2.2]
    decide

/-- C7.  Write-once receipts: a first successful storeReceipt at a
positive block timestamp records all fields; a second storeReceipt for
the same paymentId from an authorized caller reverts with
ReceiptAlreadyExists and, with revert semantics, every field of the
first stored receipt is unchanged. -/
theorem storeReceipt_write_once (s s' : ReceiptStore)
    (sender1 pid eid buyer seller dh rmh amt now1 : Nat)
    (sender2 eid2 buyer2 seller2 dh2 rmh2 amt2 now2 : Nat)
    (h1 : s.storeReceipt sender1 pid eid buyer seller dh rmh amt now1 = .ok s')
    (hnow : 0 < now1)
    (hauth2 : sender2 = s'.escrowVault ∨ sender2 = s'.owner) :
    s'.receipts pid = ⟨pid, eid, buyer, seller, dh, rmh, now1, amt⟩ ∧
    s'.storeReceipt sender2 pid eid2 buyer2 seller2 dh2 rmh2 amt2 now2
      = .error .ReceiptAlreadyExists ∧
    (unwrapOr (s'.storeReceipt sender2 pid eid2 buyer2 seller2 dh2 rmh2 amt2 now2)
        s').receipts pid
      = ⟨pid, eid, buyer, seller, dh, rmh, now1, amt⟩ := by
  unfold ReceiptStore.storeReceipt at h1
  split at h1
  · exact absurd h1 (by simp)
  · split at h1
    · exact absurd h1 (by simp)
    · injection h1 with h1
      have hfield : s'.receipts pid = ⟨pid, eid, buyer, seller, dh, rmh, now1, amt⟩ := by
        rw [← h1]
        simp [setAt]
      have hts : (s'.receipts pid).timestamp ≠ 0 := by
        rw [hfield]
        show now1 ≠ 0
        omega
      have hauth' : ¬ (sender2 ≠ s'.escrowVault ∧ sender2 ≠ s'.owner) := by tauto
      have hsecond : s'.storeReceipt sender2 pid eid2 buyer2 seller2 dh2 rmh2 amt2 now2
          = .error .ReceiptAlreadyExists := by
        unfold ReceiptStore.storeReceipt
        rw [if_neg hauth', if_pos hts]
      refine ⟨hfield, hsecond, ?_⟩
      rw [hsecond]
      simpa [unwrapOr] using hfield

/-- Concrete fresh receipt store for the write-once witness: owner 9,
escrow vault wired to address 3. -/
def baseReceiptStore : ReceiptStore := initReceiptStore 9 3

/-- Witness for storeReceipt_write_once at a concrete first store by the
vault and a second attempt by the owner. -/
theorem storeReceipt_write_once_witness :
    (baseReceiptStore.execStore ⟨3, 42, 0, 5, 7, 11, 12, 100, 50⟩).receipts 42
      = ⟨42, 0, 5, 7, 11, 12, 50, 100⟩ ∧
    (baseReceiptStore.execStore ⟨3, 42, 0, 5, 7, 11, 12, 100, 50⟩).storeReceipt
        9 42 1 6 8 13 14 200 60 = .error .ReceiptAlreadyExists := by
  have h := storeReceipt_write_once baseReceiptStore
    (baseReceiptStore.execStore ⟨3, 42, 0, 5, 7, 11, 12, 100, 50⟩)
    3 42 0 5 7 11 12 100 50 9 1 6 8 13 14 200 60 (by rfl) (by decide) (by decide)
  exact ⟨h.1, h.2.1⟩

/-- Receipt-store invariant: a slot whose stored timestamp is zero was
never written, hence is entirely the default receipt. -/
def ReceiptInv (s : ReceiptStore) : Prop :=
  ∀ pid, (s.receipts pid).timestamp = 0 → s.receipts pid = defaultReceipt

theorem receiptInv_execStore (s : ReceiptStore) (q : StoreReq)
    (hinv : ReceiptInv s) (hq : 0 < q.now) : ReceiptInv (s.execStore q) := by
  unfold ReceiptStore.execStore ReceiptStore.storeReceipt
  split
  · simpa [unwrapOr] using hinv
  · split
    · simpa [unwrapOr] using hinv
    · intro pid h0
      simp only [unwrapOr] at h0 ⊢
      by_cases hp : pid = q.paymentId
      · subst hp
        simp [setAt] at h0
        omega
      · simp only [setAt, hp, if_neg] at h0 ⊢
        exact hinv pid h0

theorem receiptInv_execStores (s : ReceiptStore) (qs : List StoreReq)
    (hinv : ReceiptInv s) (hgood : GoodReqs qs) : ReceiptInv (s.execStores qs) := by
  induction qs generalizing s with
  | nil => simpa [ReceiptStore.execStores] using hinv
  | cons q qs ih =>
      have hq : 0 < q.now := hgood q (by simp)
      have hgood' : GoodReqs qs := fun r hr => hgood r (by simp [hr])
      simpa [ReceiptStore.execStores] using
        ih (s.execStore q) (receiptInv_execStore s q hinv hq) hgood'

/-- C10.  In any store state reachable by storeReceipt transactions with
positive block timestamps, a paymentId with no stored receipt verifies
the all-zero delivery hash (verifyDeliveryHash returns true for hash 0)
while every nonzero hash fails to verify. -/
theorem verifyDeliveryHash_missing_receipt (owner escrow : Nat)
    (qs : List StoreReq) (pid h : Nat) (hgood : GoodReqs qs)
    (hmiss : (ReceiptStore.execStores (initReceiptStore owner escrow) qs).receiptExists pid
      = false)
    (hh : h ≠ 0) :
    (ReceiptStore.execStores (initReceiptStore owner escrow) qs).verifyDeliveryHash pid 0
      = true ∧
    (ReceiptStore.execStores (initReceiptStore owner escrow) qs).verifyDeliveryHash pid h
      = false := by
  have hinv : ReceiptInv (ReceiptStore.execStores (initReceiptStore owner escrow) qs) :=
    receiptInv_execStores _ qs (fun _ _ => rfl) hgood
  have hts : ((ReceiptStore.execStores (initReceiptStore owner escrow) qs).receipts pid).timestamp
      = 0 := by
    simpa [ReceiptStore.receiptExists] using hmiss
  have hdef := hinv pid hts
  constructor
  · simp [ReceiptStore.verifyDeliveryHash, hdef, defaultReceipt]
  · simp [ReceiptStore.verifyDeliveryHash, hdef, defaultReceipt]
    omega

/-- Witness for verifyDeliveryHash_missing_receipt: after one concrete
store under paymentId 42, the unstored paymentId 41 verifies hash 0 and
rejects hash 1. -/
theorem verifyDeliveryHash_missing_receipt_witness :
    (ReceiptStore.execStores (initReceiptStore 9 3) [⟨3, 42, 0, 5, 7, 11, 12, 100, 50⟩]).verifyDeliveryHash 41 0 = true ∧
    (ReceiptStore.execStores (initReceiptStore 9 3) [⟨3, 42, 0, 5, 7, 11, 12, 100, 50⟩]).verifyDeliveryHash 41 1 = false :=
  verifyDeliveryHash_missing_receipt 9 3 [⟨3, 42, 0, 5, 7, 11, 12, 100, 50⟩] 41 1
    (by intro q hq; simp only [List.mem_singleton] at hq; subst hq; decide)
    (by decide) (by decide)

/-- A quantity at most 10000 basis points contributes at most its weight
after floor division by the denominator. -/
theorem bps_component_le (x w : Nat) (hx : x ≤ 10000) : x * w / 10000 ≤ w := by
  have h1 : x * w ≤ 10000 * w := Nat.mul_le_mul_right w hx
  calc x * w / 10000 ≤ 10000 * w / 10000 := Nat.div_le_div_right h1
  _ = w := by rw [Nat.mul_comm, Nat.mul_div_cancel _ (by norm_num)]

/-- A floor-divided rate of a part over a whole is at most 10000 bps. -/
theorem rate_le_bps (x t : Nat) (h : x ≤ t) (ht : 0 < t) : x * 10000 / t ≤ 10000 := by
  have h1 : x * 10000 ≤ t * 10000 := Nat.mul_le_mul_right _ h
  calc x * 10000 / t ≤ t * 10000 / t := Nat.div_le_div_right h1
  _ = 10000 := by rw [Nat.mul_comm, Nat.mul_div_cancel _ ht]

/-- C8.  Seller composite score: zero when totalDeliveries is zero, and
otherwise the sum of the floor-divided basis-point components
7000 x successRate + 2000 x (1 - lost-dispute rate, clamped at zero)
+ 1000 x min(volume / 1000 USDC, 1); under the reachable-counter
relation successfulDeliveries <= totalDeliveries the result lies in
[0, 10000].  The right-hand side below is the formula exactly as the
specification states it. -/
theorem sellerScore_formula (s : ReputationEngine) (a : Nat)
    (hsucc : (s.sellerScores a).successfulDeliveries ≤ (s.sellerScores a).totalDeliveries) :
    ((s.sellerScores a).totalDeliveries = 0 → s.getSellerReputationScore a = 0) ∧
    s.getSellerReputationScore a =
      (if (s.sellerScores a).totalDeliveries = 0 then 0 else
        ((s.sellerScores a).successfulDeliveries * 10000
            / (s.sellerScores a).totalDeliveries) * 7000 / 10000
        + (10000 - min 10000 ((s.sellerScores a).disputesLost * 10000
            / (s.sellerScores a).totalDeliveries)) * 2000 / 10000
        + (min ((s.sellerScores a).totalVolumeUSD6 * 10000 / 1000000000) 10000)
            * 1000 / 10000) ∧
    s.getSellerReputationScore a ≤ 10000 := by
  by_cases h0 : (s.sellerScores a).totalDeliveries = 0
  · have hz : s.getSellerReputationScore a = 0 := by
      unfold ReputationEngine.getSellerReputationScore
      rw [if_pos h0]
    refine ⟨fun _ => hz, ?_, by omega⟩
    rw [hz, if_pos h0]
  · have hpos : 0 < (s.sellerScores a).totalDeliveries := Nat.pos_of_ne_zero h0
    have hldr : (if BPS_DENOMINATOR ≤ (s.sellerScores a).disputesLost * BPS_DENOMINATOR
          / (s.sellerScores a).totalDeliveries then 0
        else BPS_DENOMINATOR - (s.sellerScores a).disputesLost * BPS_DENOMINATOR
          / (s.sellerScores a).totalDeliveries)
        = 10000 - min 10000 ((s.sellerScores a).disputesLost * 10000
          / (s.sellerScores a).totalDeliveries) := by
      unfold BPS_DENOMINATOR
      split <;> omega
    have hvf : (if MAX_VOLUME_FOR_BONUS ≤ (s.sellerScores a).totalVolumeUSD6
          then BPS_DENOMINATOR
          else (s.sellerScores a).totalVolumeUSD6 * BPS_DENOMINATOR / MAX_VOLUME_FOR_BONUS)
        = min ((s.sellerScores a).totalVolumeUSD6 * 10000 / 1000000000) 10000 := by
      unfold MAX_VOLUME_FOR_BONUS BPS_DENOMINATOR
      split
      · rename_i hge
        have hle : (10000 : Nat) ≤ (s.sellerScores a).totalVolumeUSD6 * 10000 / 1000000000 := by
          rw [Nat.le_div_iff_mul_le (by norm_num)]
          calc (10000 : Nat) * 1000000000 = 1000000000 * 10000 := by ring
          _ ≤ (s.sellerScores a).totalVolumeUSD6 * 10000 := Nat.mul_le_mul_right _ hge
        omega
      · rename_i hlt
        have hle : (s.sellerScores a).totalVolumeUSD6 * 10000 / 1000000000 ≤ 10000 := by
          have h1 : (s.sellerScores a).totalVolumeUSD6 * 10000 ≤ 1000000000 * 10000 :=
            Nat.mul_le_mul_right _ (by omega)
          calc (s.sellerScores a).totalVolumeUSD6 * 10000 / 1000000000
              ≤ 1000000000 * 10000 / 1000000000 := Nat.div_le_div_right h1
          _ = 10000 := by norm_num
        omega
    have heq : s.getSellerReputationScore a =
        ((s.sellerScores a).successfulDeliveries * 10000
            / (s.sellerScores a).totalDeliveries) * 7000 / 10000
        + (10000 - min 10000 ((s.sellerScores a).disputesLost * 10000
            / (s.sellerScores a).totalDeliveries)) * 2000 / 10000
        + (min ((s.sellerScores a).totalVolumeUSD6 * 10000 / 1000000000) 10000)
            * 1000 / 10000 := by
      simp only [ReputationEngine.getSellerReputationScore]
      rw [if_neg h0, if_pos hpos, hldr, hvf]
      rfl
    have hb1 : ((s.sellerScores a).successfulDeliveries * 10000
        / (s.sellerScores a).totalDeliveries) * 7000 / 10000 ≤ 7000 :=
      bps_component_le _ _ (rate_le_bps _ _ hsucc hpos)
    have hb2 : (10000 - min 10000 ((s.sellerScores a).disputesLost * 10000
        / (s.sellerScores a).totalDeliveries)) * 2000 / 10000 ≤ 2000 :=
      bps_component_le _ _ (Nat.sub_le _ _)
    have hb3 : (min ((s.sellerScores a).totalVolumeUSD6 * 10000 / 1000000000) 10000)
        * 1000 / 10000 ≤ 1000 :=
      bps_component_le _ _ (min_le_right _ _)
    have hbound : s.getSellerReputationScore a ≤ 10000 := by
      rw [heq]
      exact le_trans (add_le_add (add_le_add hb1 hb2) hb3) (by norm_num)
    refine ⟨fun hc => absurd hc h0, ?_, hbound⟩
    rw [heq, if_neg h0]

/-- Witness for sellerScore_formula: a seller with 3 total deliveries, 2
successful, 1 dispute lost and zero volume scores 4666 + 1333 + 0. -/
theorem sellerScore_formula_witness :
    ({ initReputationEngine 9 3 with
        sellerScores := setAt (fun _ => defaultSellerScore) 7
          ⟨3, 2, 1, 1, 0, 0, 40, 10⟩ } : ReputationEngine).getSellerReputationScore 7
      = 5999 := by
  have h := sellerScore_formula
    ({ initReputationEngine 9 3 with
        sellerScores := setAt (fun _ => defaultSellerScore) 7
          ⟨3, 2, 1, 1, 0, 0, 40, 10⟩ } : ReputationEngine) 7 (by decide)
  rw [h.2.1]
  decide

/-- The leaderboard maintenance touches only topSellers. -/
theorem updateLeaderboard_sellerScores (s : ReputationEngine) (a : Nat) :
    (s.updateLeaderboard a).sellerScores = s.sellerScores := by
  simp only [ReputationEngine.updateLeaderboard]
  split
  · rfl
  · split
    · rfl
    · split <;> rfl

/-- Counter invariant of every reachable ReputationEngine state: no
record operation writes totalVolumeUSD6 and successfulDeliveries never
exceeds totalDeliveries. -/
def RepInv (s : ReputationEngine) : Prop :=
  ∀ a, (s.sellerScores a).totalVolumeUSD6 = 0 ∧
       (s.sellerScores a).successfulDeliveries ≤ (s.sellerScores a).totalDeliveries

theorem repInv_execRepOp (s : ReputationEngine) (op : RepOp)
    (hinv : RepInv s) : RepInv (s.execRepOp op) := by
  cases op with
  | delivery sender pid seller buyer now =>
      simp only [ReputationEngine.execRepOp, ReputationEngine.recordDelivery]
      split
      · simpa [unwrapOr] using hinv
      · intro a
        simp only [unwrapOr, updateLeaderboard_sellerScores]
        by_cases ha : a = seller
        · subst ha
          have h := hinv a
          simp only [setAt_same]
          try simp
          omega
        · simp [setAt, ha]
          exact hinv a
  | disputeOutcome sender pid seller buyer buyerWon now =>
      simp only [ReputationEngine.execRepOp, ReputationEngine.recordDispute]
      split
      · simpa [unwrapOr] using hinv
      · intro a
        simp only [unwrapOr, updateLeaderboard_sellerScores]
        by_cases ha : a = seller
        · subst ha
          have h := hinv a
          simp only [setAt_same]
          try simp
          omega
        · simp [setAt, ha]
          exact hinv a
  | refundOutcome sender pid seller buyer now =>
      simp only [ReputationEngine.execRepOp, ReputationEngine.recordRefund]
      split
      · simpa [unwrapOr] using hinv
      · intro a
        simp only [unwrapOr, updateLeaderboard_sellerScores]
        by_cases ha : a = seller
        · subst ha
          have h := hinv a
          simp only [setAt_same]
          try simp
          omega
        · simp [setAt, ha]
          exact hinv a

theorem repInv_execRepOps (s : ReputationEngine) (ops : List RepOp)
    (hinv : RepInv s) : RepInv (s.execRepOps ops) := by
  induction ops generalizing s with
  | nil => simpa [ReputationEngine.execRepOps] using hinv
  | cons op ops ih =>
      simpa [ReputationEngine.execRepOps] using
        ih (s.execRepOp op) (repInv_execRepOp s op hinv)

/-- C9.  In every reachable ReputationEngine state, totalVolumeUSD6 is
zero for every seller (no record operation writes it), so the volume
bonus is always zero and every seller composite score is at most
9000. -/
theorem sellerScore_volume_dead (s : ReputationEngine) (a : Nat)
    (h : RepReachable s) :
    (s.sellerScores a).totalVolumeUSD6 = 0 ∧
    s.getSellerReputationScore a ≤ 9000 := by
  obtain ⟨owner, escrow, ops, rfl⟩ := h
  have hinv : RepInv (ReputationEngine.execRepOps (initReputationEngine owner escrow) ops) :=
    repInv_execRepOps _ ops (fun a => by constructor <;> rfl)
  obtain ⟨hvol, hsucc⟩ := hinv a
  refine ⟨hvol, ?_⟩
  set t := ReputationEngine.execRepOps (initReputationEngine owner escrow) ops
  by_cases h0 : (t.sellerScores a).totalDeliveries = 0
  · unfold ReputationEngine.getSellerReputationScore
    rw [if_pos h0]
    omega
  · have hpos : 0 < (t.sellerScores a).totalDeliveries := Nat.pos_of_ne_zero h0
    have hplain : t.getSellerReputationScore a =
        ((t.sellerScores a).successfulDeliveries * 10000
            / (t.sellerScores a).totalDeliveries) * 7000 / 10000
        + (if 10000 ≤ (t.sellerScores a).disputesLost * 10000
              / (t.sellerScores a).totalDeliveries then 0
            else 10000 - (t.sellerScores a).disputesLost * 10000
              / (t.sellerScores a).totalDeliveries) * 2000 / 10000 := by
      simp only [ReputationEngine.getSellerReputationScore, BPS_DENOMINATOR,
        MAX_VOLUME_FOR_BONUS]
      rw [if_neg h0, if_pos hpos, hvol]
      simp
    have hb1 : ((t.sellerScores a).successfulDeliveries * 10000
        / (t.sellerScores a).totalDeliveries) * 7000 / 10000 ≤ 7000 :=
      bps_component_le _ _ (rate_le_bps _ _ hsucc hpos)
    have hb2 : (if 10000 ≤ (t.sellerScores a).disputesLost * 10000
          / (t.sellerScores a).totalDeliveries then 0
        else 10000 - (t.sellerScores a).disputesLost * 10000
          / (t.sellerScores a).totalDeliveries) * 2000 / 10000 ≤ 2000 := by
      refine bps_component_le _ _ ?_
      split
      · omega
      · exact Nat.sub_le _ _
    rw [hplain]
    exact le_trans (add_le_add hb1 hb2) (by norm_num)

/-- Witness for sellerScore_volume_dead after one concrete
recordDelivery transaction by the owner. -/
theorem sellerScore_volume_dead_witness :
    ((ReputationEngine.execRepOps (initReputationEngine 9 3)
        [RepOp.delivery 9 1 7 5 50]).sellerScores 7).totalVolumeUSD6 = 0 ∧
    (ReputationEngine.execRepOps (initReputationEngine 9 3)
        [RepOp.delivery 9 1 7 5 50]).getSellerReputationScore 7 ≤ 9000 :=
  sellerScore_volume_dead _ 7 ⟨9, 3, [RepOp.delivery 9 1 7 5 50], rfl⟩

/-- C5.  Cryptographic gate with atomic rejection: when
markDeliveredWithSellerSig is called on an existing Pending payment
before the delivery deadline and EIP-712 recovery yields any address
other than the payment seller, the call reverts with InvalidSignature,
and under revert semantics the payment stays Pending with no receipt
written and no endpoint call-count increment. -/
theorem markDelivered_bad_signature (s : System)
    (pid deliveryHash responseMetaHash signer now : Nat)
    (hex : (s.payments pid).buyer ≠ 0)
    (hst : (s.payments pid).status = .Pending)
    (htime : now ≤ (s.payments pid).openedAt + s.deliveryDeadline)
    (hsig : signer ≠ (s.payments pid).seller) :
    applyOp s (.markDelivered pid deliveryHash responseMetaHash signer now)
      = .error .InvalidSignature ∧
    ((execOp s (.markDelivered pid deliveryHash responseMetaHash signer now)).payments
        pid).status = .Pending ∧
    (execOp s (.markDelivered pid deliveryHash responseMetaHash signer now)).receipts
      = s.receipts ∧
    ((execOp s (.markDelivered pid deliveryHash responseMetaHash signer now)).endpoints
        (s.payments pid).endpointId).totalCalls
      = (s.endpoints (s.payments pid).endpointId).totalCalls := by
  have herr : applyOp s (.markDelivered pid deliveryHash responseMetaHash signer now)
      = .error .InvalidSignature := by
    simp only [applyOp, markDeliveredWithSellerSig]
    rw [if_neg hex, if_neg (by simp [hst]), if_neg (by omega), if_pos hsig]
  refine ⟨herr, ?_, ?_, ?_⟩ <;> rw [show execOp s
      (.markDelivered pid deliveryHash responseMetaHash signer now) = s by
    unfold execOp
    rw [herr]
    rfl]
  exact hst

/-- Concrete system holding one Pending payment, used by the escrow
witnesses: endpoint 0 of seller 7 registered at 10, payment 0 opened by
buyer 5 at 20. -/
def pendingSystem : System :=
  execOps baseSystem [Op.register 7 "uri" 100 0 3600 0 10, Op.openPay 5 0 100 0 20]

/-- Witness for markDelivered_bad_signature: signer 8 is not seller 7,
the call reverts and payment 0 stays Pending. -/
theorem markDelivered_bad_signature_witness :
    applyOp pendingSystem (.markDelivered 0 11 12 8 30) = .error .InvalidSignature ∧
    ((execOp pendingSystem (.markDelivered 0 11 12 8 30)).payments 0).status = .Pending ∧
    (execOp pendingSystem (.markDelivered 0 11 12 8 30)).receipts
      = pendingSystem.receipts ∧
    ((execOp pendingSystem (.markDelivered 0 11 12 8 30)).endpoints
        (pendingSystem.payments 0).endpointId).totalCalls
      = (pendingSystem.endpoints (pendingSystem.payments 0).endpointId).totalCalls :=
  markDelivered_bad_signature pendingSystem 0 11 12 8 30
    (by decide) (by decide) (by decide) (by decide)

/-- The floor protocol fee never exceeds the amount when the fee rate is
at most the full 10000 basis points. -/
theorem fee_le (amount bps : Nat) (h : bps ≤ 10000) :
    amount * bps / BPS_DENOMINATOR ≤ amount := by
  show amount * bps / 10000 ≤ amount
  rw [Nat.mul_comm]
  exact bps_component_le bps amount h

/-- Value conservation statement for one settling transaction: on a
release (or a seller-win dispute resolution) the seller balance grows by
amount minus the floor fee, the accrued fees grow by exactly that fee,
and the two parts recompose to the amount with no dust lost; on a refund
(or a buyer-win resolution) the buyer balance grows by the full amount
and no fee accrues. -/
def ConservationStep (s : System) (op : Op) (t : System) : Prop :=
  match op with
  | .releaseCall pid _ =>
      ((s.payments pid).seller ≠ s.vaultAddr →
        t.bal (s.payments pid).seller
          = s.bal (s.payments pid).seller
            + ((s.payments pid).amount
               - (s.payments pid).amount * s.protocolFeeBps / BPS_DENOMINATOR)) ∧
      t.accumulatedFees = s.accumulatedFees
        + (s.payments pid).amount * s.protocolFeeBps / BPS_DENOMINATOR ∧
      ((s.payments pid).amount
          - (s.payments pid).amount * s.protocolFeeBps / BPS_DENOMINATOR)
        + (s.payments pid).amount * s.protocolFeeBps / BPS_DENOMINATOR
        = (s.payments pid).amount
  | .refundCall pid _ =>
      ((s.payments pid).buyer ≠ s.vaultAddr →
        t.bal (s.payments pid).buyer
          = s.bal (s.payments pid).buyer + (s.payments pid).amount) ∧
      t.accumulatedFees = s.accumulatedFees
  | .resolve _ pid buyerWins _ =>
      if buyerWins then
        ((s.payments pid).buyer ≠ s.vaultAddr →
          t.bal (s.payments pid).buyer
            = s.bal (s.payments pid).buyer + (s.payments pid).amount) ∧
        t.accumulatedFees = s.accumulatedFees
      else
        ((s.payments pid).seller ≠ s.vaultAddr →
          t.bal (s.payments pid).seller
            = s.bal (s.payments pid).seller
              + ((s.payments pid).amount
                 - (s.payments pid).amount * s.protocolFeeBps / BPS_DENOMINATOR)) ∧
        t.accumulatedFees = s.accumulatedFees
          + (s.payments pid).amount * s.protocolFeeBps / BPS_DENOMINATOR ∧
        ((s.payments pid).amount
            - (s.payments pid).amount * s.protocolFeeBps / BPS_DENOMINATOR)
          + (s.payments pid).amount * s.protocolFeeBps / BPS_DENOMINATOR
          = (s.payments pid).amount
  | _ => True

/-- C1.  Value conservation on settlement, for every successful
transaction of the wired deployment whose fee rate does not exceed
10000 bps (the contract caps it at 500). -/
theorem settlement_conservation (s : System) (op : Op) (s' : System)
    (hbps : s.protocolFeeBps ≤ 10000)
    (h : applyOp s op = .ok s') : ConservationStep s op s' := by
  have hfl : ∀ pid, (s.payments pid).amount * s.protocolFeeBps / BPS_DENOMINATOR
      ≤ (s.payments pid).amount := fun pid => fee_le _ _ hbps
  cases op with
  | releaseCall pid now =>
      simp only [applyOp, release] at h
      split_ifs at h with h1 h2 h3 h4
      all_goals cases h
      simp only [ConservationStep]
      refine ⟨?_, True.intro, by have := hfl pid; omega⟩
      intro hsv
      simp [xferBal, setAt, hsv]
  | refundCall pid now =>
      simp only [applyOp, refundPayment] at h
      split_ifs at h with h1 h2 h3 h4
      all_goals cases h
      simp only [ConservationStep]
      refine ⟨?_, True.intro⟩
      intro hbv
      simp [xferBal, setAt, hbv]
  | resolve sender pid buyerWins now =>
      simp only [applyOp, resolveDispute] at h
      split_ifs at h with h1 h2 h3 h4 h5
      all_goals cases h
      · simp only [ConservationStep]
        rw [if_pos h4]
        refine ⟨?_, True.intro⟩
        intro hbv
        simp [xferBal, setAt, hbv]
      · simp only [ConservationStep]
        rw [if_neg h4]
        refine ⟨?_, True.intro, by have := hfl pid; omega⟩
        intro hsv
        simp [xferBal, setAt, hsv]
  | register sender uri price category window bond now => exact trivial
  | update sender eid uri price window now => exact trivial
  | deactivate sender eid now => exact trivial
  | reactivate sender eid now => exact trivial
  | openPay sender eid maxPrice note now => exact trivial
  | markDelivered pid dh rmh signer now => exact trivial
  | disputeCall sender pid evidence now => exact trivial

/-- Concrete system holding one Delivered payment past its dispute
window: the pending payment of pendingSystem delivered by seller 7 at
time 30, window ends 3630. -/
def deliveredSystem : System :=
  execOp pendingSystem (Op.markDelivered 0 11 12 7 30)

/-- Witness for settlement_conservation: releasing payment 0 (amount
100, fee rate 100 bps) at time 4000 conserves value. -/
theorem settlement_conservation_witness :
    ConservationStep deliveredSystem (Op.releaseCall 0 4000)
      (execOp deliveredSystem (Op.releaseCall 0 4000)) :=
  settlement_conservation deliveredSystem (Op.releaseCall 0 4000)
    (execOp deliveredSystem (Op.releaseCall 0 4000)) (by decide) (by rfl)

/-- C4 counterexample.  Two identical concrete runs, except that the
second inserts an updateEndpoint (window 3600 to 7200) between open and
delivery: the payment amount is unchanged but the dispute window applied
to the in-flight payment becomes deliveredAt + 7200 instead of
deliveredAt + 3600, because markDeliveredWithSellerSig re-reads
disputeWindowSeconds from the endpoint at delivery time.  This refutes
the claim that the dispute window applied to a payment is locked at open
time. -/
theorem update_changes_applied_window :
    isErr (applyOps baseSystem c4opsA) = false ∧
    isErr (applyOps baseSystem c4opsB) = false ∧
    ((execOps baseSystem c4opsB).payments 0).amount
      = ((execOps baseSystem c4opsA).payments 0).amount ∧
    ((execOps baseSystem c4opsA).payments 0).disputeWindowEnds = 3630 ∧
    ((execOps baseSystem c4opsB).payments 0).disputeWindowEnds = 7230 := by
  refine ⟨by decide, by decide, by decide, by decide, by decide⟩

/-- C4 amended.  The payment amount is locked at open time (it is the
endpoint pricePerCall read at that moment) and updateEndpoint itself
rewrites no payment record at all; only the dispute window re-read at
delivery time can differ. -/
theorem update_frame_and_price_lock (s t : System) (sender eid : Nat)
    (uri : String) (price window now : Nat)
    (sO tO : System) (buyer eidO maxPrice note nowO : Nat)
    (hupd : updateEndpoint s sender eid uri price window now = .ok t)
    (hopen : openPayment sO buyer eidO maxPrice note nowO = .ok tO) :
    t.payments = s.payments ∧
    t.paymentCounter = s.paymentCounter ∧
    (tO.payments sO.paymentCounter).amount = (sO.endpoints eidO).pricePerCall := by
  refine ⟨?_, ?_, ?_⟩
  · simp only [updateEndpoint] at hupd
    split_ifs at hupd
    all_goals cases hupd
    rfl
  · simp only [updateEndpoint] at hupd
    split_ifs at hupd
    all_goals cases hupd
    rfl
  · simp only [openPayment] at hopen
    split_ifs at hopen
    all_goals cases hopen
    simp [setAt]

/-- Witness for update_frame_and_price_lock at a concrete update and a
concrete open against pendingSystem. -/
theorem update_frame_and_price_lock_witness :
    (execOp pendingSystem (Op.update 7 0 "uri2" 100 7200 25)).payments
      = pendingSystem.payments ∧
    (execOp pendingSystem (Op.update 7 0 "uri2" 100 7200 25)).paymentCounter
      = pendingSystem.paymentCounter ∧
    ((execOp pendingSystem (Op.openPay 5 0 100 0 22)).payments
        pendingSystem.paymentCounter).amount
      = (pendingSystem.endpoints 0).pricePerCall :=
  update_frame_and_price_lock pendingSystem
    (execOp pendingSystem (Op.update 7 0 "uri2" 100 7200 25)) 7 0 "uri2" 100 7200 25
    pendingSystem (execOp pendingSystem (Op.openPay 5 0 100 0 22)) 5 0 100 0 22
    (by rfl) (by rfl)

/-- C3.  Evaluating the contracts on the happy-path run: payment 0
settles to Released and the endpoint call counter increments, yet the
ReputationEngine counters of seller 7 and buyer 5 and the ReceiptStore
slot of the payment are exactly their deployment defaults — the escrow
settlement functions never call recordDelivery / recordDispute /
recordRefund / storeReceipt. -/
theorem settlement_without_fanout :
    isErr (applyOps baseSystem happyOps) = false ∧
    ((execOps baseSystem happyOps).payments 0).status = .Released ∧
    ((execOps baseSystem happyOps).endpoints 0).totalCalls = 1 ∧
    (execOps baseSystem happyOps).sellerScores 7 = defaultSellerScore ∧
    (execOps baseSystem happyOps).buyerScores 5 = defaultBuyerScore ∧
    (execOps baseSystem happyOps).receipts 0 = defaultReceipt := by
  refine ⟨by decide, by decide, by decide, by decide, by decide, by decide⟩

/-- Every escrow transaction, successful or not, leaves the
ReputationEngine and ReceiptStore storage untouched: EscrowVault holds
no reference to either contract. -/
theorem escrow_leaves_satellites (s : System) (op : Op) (s' : System)
    (h : applyOp s op = .ok s') :
    s'.sellerScores = s.sellerScores ∧ s'.buyerScores = s.buyerScores ∧
    s'.receipts = s.receipts := by
  cases op <;>
    (simp only [applyOp, registerEndpoint, updateEndpoint, deactivateEndpoint,
      reactivateEndpoint, openPayment, markDeliveredWithSellerSig, disputePayment,
      release, refundPayment, resolveDispute] at h
     split_ifs at h
     all_goals cases h
     all_goals exact ⟨rfl, rfl, rfl⟩)

/-- Witness for escrow_leaves_satellites at the concrete release step of
the happy path. -/
theorem escrow_leaves_satellites_witness :
    (execOp deliveredSystem (Op.releaseCall 0 4000)).sellerScores
      = deliveredSystem.sellerScores ∧
    (execOp deliveredSystem (Op.releaseCall 0 4000)).buyerScores
      = deliveredSystem.buyerScores ∧
    (execOp deliveredSystem (Op.releaseCall 0 4000)).receipts
      = deliveredSystem.receipts :=
  escrow_leaves_satellites deliveredSystem (Op.releaseCall 0 4000)
    (execOp deliveredSystem (Op.releaseCall 0 4000)) (by rfl)

/-- Forward edges of the payment state graph of the specification:
Pending to Delivered or Refunded, Delivered to Disputed or Released,
Disputed to Refunded or Released; terminal states have no outgoing
edge. -/
def statusStep : PaymentStatus → PaymentStatus → Bool := fun a b =>
  match a, b with
  | .Pending, .Delivered => true
  | .Pending, .Refunded => true
  | .Delivered, .Disputed => true
  | .Delivered, .Released => true
  | .Disputed, .Refunded => true
  | .Disputed, .Released => true
  | _, _ => false

/-- Fresh-id invariant of the escrow: payment slots at or beyond the
counter have never been written (payment ids are generated from the
hashed monotone counter). -/
def EscrowInv (s : System) : Prop :=
  ∀ q, s.paymentCounter ≤ q → s.payments q = defaultPayment

/-- One successful transaction moves each payment status along at most
one graph edge (or leaves it unchanged), and preserves the fresh-id
invariant. -/
theorem applyOp_status_step (s : System) (op : Op) (s' : System)
    (hinv : EscrowInv s) (h : applyOp s op = .ok s') (pid : Nat) :
    ((s'.payments pid).status = (s.payments pid).status ∨
      statusStep (s.payments pid).status (s'.payments pid).status = true) ∧
    EscrowInv s' := by
  unfold EscrowInv at hinv ⊢
  cases op with
  | register sender uri price category window bond now =>
      simp only [applyOp, registerEndpoint] at h
      split_ifs at h
      all_goals cases h
      exact ⟨Or.inl rfl, hinv⟩
  | update sender eid uri price window now =>
      simp only [applyOp, updateEndpoint] at h
      split_ifs at h
      all_goals cases h
      exact ⟨Or.inl rfl, hinv⟩
  | deactivate sender eid now =>
      simp only [applyOp, deactivateEndpoint] at h
      split_ifs at h
      all_goals cases h
      exact ⟨Or.inl rfl, hinv⟩
  | reactivate sender eid now =>
      simp only [applyOp, reactivateEndpoint] at h
      split_ifs at h
      all_goals cases h
      exact ⟨Or.inl rfl, hinv⟩
  | openPay sender eid maxPrice note now =>
      simp only [applyOp, openPayment] at h
      split_ifs at h
      all_goals cases h
      constructor
      · by_cases hp : pid = s.paymentCounter
        · left
          rw [hp, hinv s.paymentCounter le_rfl]
          simp [setAt, defaultPayment]
        · left
          simp [setAt, hp]
      · intro q hq
        simp only at hq
        have hne : q ≠ s.paymentCounter := by omega
        simp [setAt, hne]
        exact hinv q (by omega)
  | markDelivered pid' dh rmh signer now =>
      simp only [applyOp, markDeliveredWithSellerSig] at h
      split_ifs at h with h1 h2 h3 h4 h5
      all_goals cases h
      have hlt : pid' < s.paymentCounter := by
        by_contra hge
        rw [hinv pid' (by omega)] at h1
        exact h1 rfl
      constructor
      · by_cases hp : pid = pid'
        · subst hp
          right
          rw [not_not.mp h2]
          simp [setAt, statusStep]
        · left
          simp [setAt, hp]
      · intro q hq
        simp only at hq
        have hne : q ≠ pid' := by omega
        simp [setAt, hne]
        exact hinv q hq
  | disputeCall sender pid' evidence now =>
      simp only [applyOp, disputePayment] at h
      split_ifs at h with h1 h2 h3 h4
      all_goals cases h
      have hlt : pid' < s.paymentCounter := by
        by_contra hge
        rw [hinv pid' (by omega)] at h1
        exact h1 rfl
      constructor
      · by_cases hp : pid = pid'
        · subst hp
          right
          rw [not_not.mp h3]
          simp [setAt, statusStep]
        · left
          simp [setAt, hp]
      · intro q hq
        simp only at hq
        have hne : q ≠ pid' := by omega
        simp [setAt, hne]
        exact hinv q hq
  | releaseCall pid' now =>
      simp only [applyOp, release] at h
      split_ifs at h with h1 h2 h3 h4
      all_goals cases h
      have hlt : pid' < s.paymentCounter := by
        by_contra hge
        rw [hinv pid' (by omega)] at h1
        exact h1 rfl
      constructor
      · by_cases hp : pid = pid'
        · subst hp
          right
          rw [not_not.mp h2]
          simp [setAt, statusStep]
        · left
          simp [setAt, hp]
      · intro q hq
        simp only at hq
        have hne : q ≠ pid' := by omega
        simp [setAt, hne]
        exact hinv q hq
  | refundCall pid' now =>
      simp only [applyOp, refundPayment] at h
      split_ifs at h with h1 h2 h3 h4
      all_goals cases h
      have hlt : pid' < s.paymentCounter := by
        by_contra hge
        rw [hinv pid' (by omega)] at h1
        exact h1 rfl
      constructor
      · by_cases hp : pid = pid'
        · subst hp
          right
          rw [not_not.mp h2]
          simp [setAt, statusStep]
        · left
          simp [setAt, hp]
      · intro q hq
        simp only at hq
        have hne : q ≠ pid' := by omega
        simp [setAt, hne]
        exact hinv q hq
  | resolve sender pid' buyerWins now =>
      simp only [applyOp, resolveDispute] at h
      split_ifs at h with h1 h2 h3 h4 h5
      all_goals cases h
      · have hlt : pid' < s.paymentCounter := by
          by_contra hge
          rw [hinv pid' (by omega)] at h2
          exact h2 rfl
        constructor
        · by_cases hp : pid = pid'
          · subst hp
            right
            rw [not_not.mp h3]
            simp [setAt, statusStep]
          · left
            simp [setAt, hp]
        · intro q hq
          simp only at hq
          have hne : q ≠ pid' := by omega
          simp [setAt, hne]
          exact hinv q hq
      · have hlt : pid' < s.paymentCounter := by
          by_contra hge
          rw [hinv pid' (by omega)] at h2
          exact h2 rfl
        constructor
        · by_cases hp : pid = pid'
          · subst hp
            right
            rw [not_not.mp h3]
            simp [setAt, statusStep]
          · left
            simp [setAt, hp]
        · intro q hq
          simp only at hq
          have hne : q ≠ pid' := by omega
          simp [setAt, hne]
          exact hinv q hq

/-- C2.  Status monotonicity: along any successful transaction sequence,
every payment status walks forward through the state graph (reflexive
transitive closure of the graph edges); in particular nothing ever
returns to Pending or Delivered and terminal states never change. -/
theorem status_monotonic (s : System) (ops : List Op) (s' : System) (pid : Nat)
    (hinv : EscrowInv s) (h : applyOps s ops = .ok s') :
    Relation.ReflTransGen (fun a b => statusStep a b = true)
      (s.payments pid).status (s'.payments pid).status := by
  induction ops generalizing s with
  | nil =>
      simp only [applyOps] at h
      cases h
      exact Relation.ReflTransGen.refl
  | cons op rest ih =>
      simp only [applyOps] at h
      cases hop : applyOp s op with
      | error e => rw [hop] at h; cases h
      | ok t =>
          rw [hop] at h
          have step := applyOp_status_step s op t hinv hop pid
          have tail := ih t step.2 h
          rcases step.1 with heq | hstep
          · rw [← heq]
            exact tail
          · exact Relation.ReflTransGen.head hstep tail

/-- Witness for status_monotonic along the concrete happy path: payment
0 walks from Pending to Released. -/
theorem status_monotonic_witness :
    Relation.ReflTransGen (fun a b => statusStep a b = true)
      ((baseSystem.payments 0).status)
      (((execOps baseSystem happyOps).payments 0).status) :=
  status_monotonic baseSystem happyOps (execOps baseSystem happyOps) 0
    (fun _ _ => rfl) (by rfl)

end LatchPay
